import Mathlib

/-
Verification of the llmpole hardware-fit/scoring engine.

Shallow embedding conventions:
- Go float64 values are modelled as exact rationals (ℚ); all constants in the
  source (0.58, 1.2, 0.000008, ...) are exact decimal literals, so every
  arithmetic step of the source is mirrored exactly.
- Go uint64 / uint32 fields are modelled as ℕ, Go int as ℤ.
- Go pointer-typed optional fields are modelled as Option.
- strconv.ParseFloat with its error ignored is modelled by a partial decimal
  parser returning Option ℚ, with the Go zero value used on failure; the model
  covers the plain decimal grammar (sign, digits, fraction, exponent) which
  includes every string the development evaluates.
- Go string manipulation (strings.ToUpper / ToLower / TrimSpace / HasSuffix /
  Contains) is modelled on the character list of the string, with ASCII case
  mapping and ASCII whitespace (the character-level semantics Go applies to
  the ASCII strings this engine manipulates).
- The Notes field of a fit result (display-only strings built with
  fmt.Sprintf) is omitted from the embedding; no verified property reads it.
- runtime.GOARCH == "arm64" is a build-time constant; it is passed to
  estimateTPS and Analyze as an explicit Boolean argument goarchArm64.
-/

namespace Llmpole

/-- FitLevel mirrors pole.FitLevel: how well a model fits the hardware. -/
inductive FitLevel where
  | perfect
  | good
  | marginal
  | tooTight
deriving DecidableEq, Repr

/-- RunMode mirrors pole.RunMode: where the model's parameters would live. -/
inductive RunMode where
  | gpu
  | moeOffload
  | cpuOffload
  | cpuOnly
deriving DecidableEq, Repr

/-- GpuBackend mirrors hardware.GpuBackend. -/
inductive GpuBackend where
  | cuda
  | metal
  | rocm
  | vulkan
  | sycl
  | cpuArm
  | cpuX86
deriving DecidableEq, Repr

/-- UseCase mirrors models.UseCase. -/
inductive UseCase where
  | general
  | coding
  | reasoning
  | chat
  | multimodal
  | embedding
deriving DecidableEq, Repr

/-- GpuInfo mirrors hardware.GpuInfo. -/
structure GpuInfo where
  name : String
  vramGB : Option ℚ
  backend : GpuBackend
  count : ℕ
  unifiedMemory : Bool
deriving Repr

/-- SystemSpecs mirrors hardware.SystemSpecs. -/
structure SystemSpecs where
  totalRAMGB : ℚ
  availableRAMGB : ℚ
  totalCPUCores : ℤ
  cpuName : String
  hasGPU : Bool
  gpuVRAMGB : Option ℚ
  gpuName : Option String
  gpuCount : ℕ
  unifiedMemory : Bool
  backend : GpuBackend
  gpus : List GpuInfo
deriving Repr

/-- LlmModel mirrors models.LlmModel. -/
structure LlmModel where
  name : String
  provider : String
  parameterCount : String
  parametersRaw : Option ℕ
  minRAMGB : ℚ
  recommendedRAMGB : ℚ
  minVRAMGB : Option ℚ
  quantization : String
  contextLength : ℕ
  useCase : String
  isMoE : Bool
  numExperts : Option ℕ
  activeExperts : Option ℕ
  activeParameters : Option ℕ
deriving Repr

/-- QuantHierarchy mirrors models.QuantHierarchy: quantizations from best
quality to most compressed. -/
def QuantHierarchy : List String := ["Q8_0", "Q6_K", "Q5_K_M", "Q4_K_M", "Q3_K_M", "Q2_K"]

/-- QuantBPP mirrors models.QuantBPP: bytes per parameter for a quantization,
with the documented 0.58 default for unknown names. -/
def QuantBPP (quant : String) : ℚ :=
  if quant = "F32" then 4.0
  else if quant = "F16" ∨ quant = "BF16" then 2.0
  else if quant = "Q8_0" then 1.05
  else if quant = "Q6_K" then 0.80
  else if quant = "Q5_K_M" then 0.68
  else if quant = "Q4_K_M" ∨ quant = "Q4_0" then 0.58
  else if quant = "Q3_K_M" then 0.48
  else if quant = "Q2_K" then 0.37
  else 0.58

/-- QuantSpeedMultiplier mirrors models.QuantSpeedMultiplier. -/
def QuantSpeedMultiplier (quant : String) : ℚ :=
  if quant = "F16" ∨ quant = "BF16" then 0.6
  else if quant = "Q8_0" then 0.8
  else if quant = "Q6_K" then 0.95
  else if quant = "Q5_K_M" then 1.0
  else if quant = "Q4_K_M" ∨ quant = "Q4_0" then 1.15
  else if quant = "Q3_K_M" then 1.25
  else if quant = "Q2_K" then 1.35
  else 1.0

/-- QuantQualityPenalty mirrors models.QuantQualityPenalty. -/
def QuantQualityPenalty (quant : String) : ℚ :=
  if quant = "F16" ∨ quant = "BF16" ∨ quant = "Q8_0" then 0.0
  else if quant = "Q6_K" then -1.0
  else if quant = "Q5_K_M" then -2.0
  else if quant = "Q4_K_M" ∨ quant = "Q4_0" then -5.0
  else if quant = "Q3_K_M" then -8.0
  else if quant = "Q2_K" then -12.0
  else -5.0

/-- asciiToUpper models the ASCII case of unicode.ToUpper. -/
def asciiToUpper (c : Char) : Char :=
  if 'a' ≤ c ∧ c ≤ 'z' then Char.ofNat (c.toNat - 32) else c

/-- asciiToLower models the ASCII case of unicode.ToLower. -/
def asciiToLower (c : Char) : Char :=
  if 'A' ≤ c ∧ c ≤ 'Z' then Char.ofNat (c.toNat + 32) else c

/-- goToUpper models strings.ToUpper on the character list. -/
def goToUpper (l : List Char) : List Char := l.map asciiToUpper

/-- goToLower models strings.ToLower on the character list. -/
def goToLower (l : List Char) : List Char := l.map asciiToLower

/-- isGoSpace models unicode.IsSpace on the ASCII whitespace characters. -/
def isGoSpace (c : Char) : Bool :=
  c = ' ' ∨ c = '\t' ∨ c = '\n' ∨ c = '\x0b' ∨ c = '\x0c' ∨ c = '\r'

/-- goTrimSpace models strings.TrimSpace on the character list. -/
def goTrimSpace (l : List Char) : List Char :=
  ((l.dropWhile isGoSpace).reverse.dropWhile isGoSpace).reverse

/-- digitsToNat folds a list of decimal digit characters into a natural. -/
def digitsToNat (ds : List Char) : ℕ :=
  ds.foldl (fun acc c => acc * 10 + (c.toNat - 48)) 0

/-- parseExp parses the exponent part of a decimal float (after the e/E). -/
def parseExp (cs : List Char) : Option ℤ :=
  match cs with
  | '+' :: rest =>
    if rest ≠ [] ∧ rest.all Char.isDigit then some (digitsToNat rest) else none
  | '-' :: rest =>
    if rest ≠ [] ∧ rest.all Char.isDigit then some (-(digitsToNat rest : ℤ)) else none
  | rest =>
    if rest ≠ [] ∧ rest.all Char.isDigit then some (digitsToNat rest) else none

/-- parseUnsigned parses an unsigned decimal float: digits, optional fraction,
optional exponent, requiring at least one digit. -/
def parseUnsigned (cs : List Char) : Option ℚ :=
  let intDs := cs.takeWhile Char.isDigit
  let r1 := cs.dropWhile Char.isDigit
  let fracDs :=
    match r1 with
    | '.' :: t => t.takeWhile Char.isDigit
    | _ => []
  let r2 :=
    match r1 with
    | '.' :: t => t.dropWhile Char.isDigit
    | _ => r1
  if intDs = [] ∧ fracDs = [] then none
  else
    let mantissa : ℚ := (digitsToNat intDs : ℚ) + (digitsToNat fracDs : ℚ) / 10 ^ fracDs.length
    match r2 with
    | [] => some mantissa
    | 'e' :: t => (parseExp t).map (fun e => mantissa * (10 : ℚ) ^ e)
    | 'E' :: t => (parseExp t).map (fun e => mantissa * (10 : ℚ) ^ e)
    | _ => none

/-- parseFloat models strconv.ParseFloat restricted to the plain decimal
grammar (optional sign, digits, optional fraction and exponent) on the
character list; inputs outside that grammar yield none, matching
ParseFloat's error result. -/
def parseFloat (cs : List Char) : Option ℚ :=
  match cs with
  | '+' :: rest => parseUnsigned rest
  | '-' :: rest => (parseUnsigned rest).map Neg.neg
  | other => parseUnsigned other

namespace LlmModel

/-- ParamsB mirrors (m *LlmModel).ParamsB: raw parameter integer over 1e9 when
present, else a trailing B/M suffix parsed into billions (the ParseFloat error
being discarded, an unparseable numeric part contributes Go's zero value),
else the 7.0 default. -/
def ParamsB (m : LlmModel) : ℚ :=
  match m.parametersRaw with
  | some raw => (raw : ℚ) / 1000000000
  | none =>
    let s := goTrimSpace (goToUpper m.parameterCount.toList)
    match s.getLast? with
    | some 'B' => (parseFloat (goTrimSpace s.dropLast)).getD 0
    | some 'M' => ((parseFloat (goTrimSpace s.dropLast)).getD 0) / 1000
    | _ => 7.0

/-- EstimateMemoryGB mirrors (m *LlmModel).EstimateMemoryGB. -/
def EstimateMemoryGB (m : LlmModel) (quant : String) (ctx : ℕ) : ℚ :=
  let bpp := QuantBPP quant
  let params := m.ParamsB
  let modelMem := params * bpp
  let kvCache := 0.000008 * params * (ctx : ℚ)
  let overhead := 0.5
  modelMem + kvCache + overhead

/-- scanQuants is the loop body of BestQuantForBudget: the first quantization
in the list whose estimate fits the budget, with that estimate. -/
def scanQuants (m : LlmModel) (budgetGB : ℚ) (ctx : ℕ) : List String → Option (String × ℚ)
  | [] => none
  | q :: rest =>
    let mem := m.EstimateMemoryGB q ctx
    if mem ≤ budgetGB then some (q, mem) else scanQuants m budgetGB ctx rest

/-- BestQuantForBudget mirrors (m *LlmModel).BestQuantForBudget: scan the
hierarchy at ctx, then at ctx/2 when ctx/2 is at least 1024, then fall back to
the model's declared quantization with its estimate at the original ctx. -/
def BestQuantForBudget (m : LlmModel) (budgetGB : ℚ) (ctx : ℕ) : String × ℚ :=
  match scanQuants m budgetGB ctx QuantHierarchy with
  | some r => r
  | none =>
    let halfCtx := ctx / 2
    if 1024 ≤ halfCtx then
      match scanQuants m budgetGB halfCtx QuantHierarchy with
      | some r => r
      | none => (m.quantization, m.EstimateMemoryGB m.quantization ctx)
    else (m.quantization, m.EstimateMemoryGB m.quantization ctx)

/-- quantBPP mirrors the unexported (m *LlmModel).quantBPP. -/
def quantBPP (m : LlmModel) : ℚ := QuantBPP m.quantization

/-- MoeActiveVRAMGB mirrors (m *LlmModel).MoeActiveVRAMGB. -/
def MoeActiveVRAMGB (m : LlmModel) : Option ℚ :=
  match m.isMoE, m.activeParameters with
  | true, some ap =>
    let bpp := m.quantBPP
    let sizeGB := ((ap : ℚ) * bpp) / (1024 * 1024 * 1024)
    let v := sizeGB * 1.1
    some (if v < 0.5 then 0.5 else v)
  | _, _ => none

/-- MoeOffloadedRAMGB mirrors (m *LlmModel).MoeOffloadedRAMGB. -/
def MoeOffloadedRAMGB (m : LlmModel) : Option ℚ :=
  match m.isMoE, m.activeParameters, m.parametersRaw with
  | true, some ap, some raw =>
    let inactive := (raw : ℚ) - (ap : ℚ)
    if inactive ≤ 0 then some 0
    else some (inactive * m.quantBPP / (1024 * 1024 * 1024))
  | _, _, _ => none

end LlmModel

/-- strContainsAux looks for sub at each position of the haystack. -/
def strContainsAux (sub : List Char) : List Char → Bool
  | [] => sub.isPrefixOf []
  | c :: t => sub.isPrefixOf (c :: t) || strContainsAux sub t

/-- strContains models strings.Contains (substring containment) on
character lists. -/
def strContains (l : List Char) (sub : String) : Bool :=
  strContainsAux sub.toList l

/-- UseCaseFromModel mirrors models.UseCaseFromModel. -/
def UseCaseFromModel (m : LlmModel) : UseCase :=
  let name := goToLower m.name.toList
  let uc := goToLower m.useCase.toList
  if strContains uc "embedding" || strContains name "embed" || strContains name "bge" then
    UseCase.embedding
  else if strContains name "code" || strContains uc "code" then UseCase.coding
  else if strContains uc "vision" || strContains uc "multimodal" then UseCase.multimodal
  else if strContains uc "reason" || strContains uc "chain-of-thought" || strContains name "deepseek-r1" then
    UseCase.reasoning
  else if strContains uc "chat" || strContains uc "instruction" then UseCase.chat
  else UseCase.general

/-- maxFloat64 is the exact rational value of Go's math.MaxFloat64,
(2 - 2^-52) * 2^1023 = 2^1024 - 2^971, the sentinel utilization value. -/
def maxFloat64 : ℚ := 2 ^ 1024 - 2 ^ 971

/-- ScoreComponents mirrors pole.ScoreComponents. -/
structure ScoreComponents where
  quality : ℚ
  speed : ℚ
  fit : ℚ
  context : ℚ
deriving Repr

/-- ModelFit mirrors pole.ModelFit, minus the display-only Notes strings. -/
structure ModelFit where
  model : LlmModel
  fitLevel : FitLevel
  runMode : RunMode
  memoryRequiredGB : ℚ
  memoryAvailableGB : ℚ
  utilizationPct : ℚ
  moeOffloadedGB : Option ℚ
  score : ℚ
  scoreComponents : ScoreComponents
  estimatedTPS : ℚ
  bestQuant : String
  useCase : UseCase
deriving Repr

/-- useCaseFromString mirrors pole.useCaseFromString (the ok Boolean becomes
Option). -/
def useCaseFromString (s : String) : Option UseCase :=
  let l := goToLower s.toList
  if l = "general".toList then some UseCase.general
  else if l = "coding".toList ∨ l = "code".toList then some UseCase.coding
  else if l = "reasoning".toList ∨ l = "reason".toList then some UseCase.reasoning
  else if l = "chat".toList then some UseCase.chat
  else if l = "multimodal".toList ∨ l = "vision".toList then some UseCase.multimodal
  else if l = "embedding".toList ∨ l = "embed".toList then some UseCase.embedding
  else none

/-- cpuPath mirrors pole.cpuPath (run mode, required, available); note
appending is omitted. -/
def cpuPath (model : LlmModel) (system : SystemSpecs) : RunMode × ℚ × ℚ :=
  (RunMode.cpuOnly, model.minRAMGB, system.availableRAMGB)

/-- moeOffloadPath mirrors pole.moeOffloadPath (run mode, required,
available); note appending is omitted. -/
def moeOffloadPath (model : LlmModel) (system : SystemSpecs) (systemVram totalVram : ℚ) :
    RunMode × ℚ × ℚ :=
  let fallback : RunMode × ℚ × ℚ :=
    if model.minRAMGB ≤ system.availableRAMGB then
      (RunMode.cpuOffload, model.minRAMGB, system.availableRAMGB)
    else (RunMode.gpu, totalVram, systemVram)
  match model.MoeActiveVRAMGB with
  | some moeVram =>
    let offloadGB := (model.MoeOffloadedRAMGB).getD 0
    if moeVram ≤ systemVram ∧ offloadGB ≤ system.availableRAMGB then
      (RunMode.moeOffload, moeVram, systemVram)
    else fallback
  | none => fallback

/-- analyzeMem is the run-mode / memory decision tree at the top of
pole.Analyze (the branch over HasGPU, UnifiedMemory and GpuVRAMGB that binds
runMode, memRequired and memAvailable), factored out of Analyze so the three
values can be named; minVram is computed exactly as in Analyze. -/
def analyzeMem (model : LlmModel) (system : SystemSpecs) : RunMode × ℚ × ℚ :=
  let minVram := model.minVRAMGB.getD model.minRAMGB
  if system.hasGPU then
    if system.unifiedMemory then
      match system.gpuVRAMGB with
      | some v => (RunMode.gpu, minVram, v)
      | none => cpuPath model system
    else
      match system.gpuVRAMGB with
      | some sysVram =>
        if minVram ≤ sysVram then (RunMode.gpu, minVram, sysVram)
        else if model.isMoE then moeOffloadPath model system sysVram minVram
        else if model.minRAMGB ≤ system.availableRAMGB then
          (RunMode.cpuOffload, model.minRAMGB, system.availableRAMGB)
        else (RunMode.gpu, minVram, sysVram)
      | none => cpuPath model system
  else cpuPath model system

/-- scoreFit mirrors pole.scoreFit. -/
def scoreFit (memRequired memAvailable recommended : ℚ) (runMode : RunMode) : FitLevel :=
  if memAvailable < memRequired then FitLevel.tooTight
  else
    match runMode with
    | RunMode.gpu =>
      if recommended ≤ memAvailable then FitLevel.perfect
      else if memRequired * 1.2 ≤ memAvailable then FitLevel.good
      else FitLevel.marginal
    | RunMode.moeOffload =>
      if memRequired * 1.2 ≤ memAvailable then FitLevel.good else FitLevel.marginal
    | RunMode.cpuOffload =>
      if memRequired * 1.2 ≤ memAvailable then FitLevel.good else FitLevel.marginal
    | RunMode.cpuOnly => FitLevel.marginal

/-- backendBaseK is the backend base-constant switch of pole.estimateTPS
(the tokens-per-second constant k for a 1B model per backend). -/
def backendBaseK (b : GpuBackend) : ℚ :=
  match b with
  | GpuBackend.cuda => 220
  | GpuBackend.metal => 160
  | GpuBackend.rocm => 180
  | GpuBackend.vulkan => 150
  | GpuBackend.sycl => 100
  | GpuBackend.cpuArm => 90
  | GpuBackend.cpuX86 => 70

/-- estimateTPS mirrors pole.estimateTPS, the backend switch factored as
backendBaseK; goarchArm64 stands for the build-time test
runtime.GOARCH == "arm64". -/
def estimateTPS (model : LlmModel) (quant : String) (system : SystemSpecs)
    (runMode : RunMode) (goarchArm64 : Bool) : ℚ :=
  let k : ℚ := backendBaseK system.backend
  let params := if model.ParamsB < 0.1 then (0.1 : ℚ) else model.ParamsB
  let base := k / params * QuantSpeedMultiplier quant
  let base := if 8 ≤ system.totalCPUCores then base * 1.1 else base
  let base :=
    match runMode with
    | RunMode.moeOffload => base * 0.8
    | RunMode.cpuOffload => base * 0.5
    | RunMode.cpuOnly => base * 0.3
    | RunMode.gpu => base
  let base :=
    if runMode = RunMode.cpuOnly then
      let cpuK : ℚ := if goarchArm64 then 90 else 70
      let b := cpuK / params * QuantSpeedMultiplier quant
      if 8 ≤ system.totalCPUCores then b * 1.1 else b
    else base
  if base < 0.1 then 0.1 else base

/-- qualityScore mirrors pole.qualityScore. -/
def qualityScore (model : LlmModel) (quant : String) (useCase : UseCase) : ℚ :=
  let params := model.ParamsB
  let base : ℚ :=
    if params < 1 then 30
    else if params < 3 then 45
    else if params < 7 then 60
    else if params < 10 then 75
    else if params < 20 then 82
    else if params < 40 then 89
    else 95
  let nameLower := goToLower model.name.toList
  let familyBump : ℚ :=
    if strContains nameLower "qwen" then 2
    else if strContains nameLower "deepseek" then 3
    else if strContains nameLower "llama" then 2
    else if strContains nameLower "mistral" || strContains nameLower "mixtral" then 1
    else if strContains nameLower "gemma" then 1
    else if strContains nameLower "starcoder" then 1
    else 0
  let qPenalty := QuantQualityPenalty quant
  let taskBump : ℚ :=
    match useCase with
    | UseCase.coding =>
      if strContains nameLower "code" || strContains nameLower "starcoder" ||
          strContains nameLower "wizard" then 6
      else 0
    | UseCase.reasoning => if 13 ≤ params then 5 else 0
    | UseCase.multimodal =>
      if strContains nameLower "vision" || strContains (goToLower model.useCase.toList) "vision" then 6
      else 0
    | _ => 0
  let v := base + familyBump + qPenalty + taskBump
  let v := if v < 0 then 0 else v
  if 100 < v then 100 else v

/-- speedScore mirrors pole.speedScore. -/
def speedScore (tps : ℚ) (useCase : UseCase) : ℚ :=
  let target : ℚ :=
    if useCase = UseCase.reasoning then 25
    else if useCase = UseCase.embedding then 200
    else 40
  let v := tps / target * 100
  let v := if v < 0 then 0 else v
  if 100 < v then 100 else v

/-- fitScore mirrors pole.fitScore. -/
def fitScore (required available : ℚ) : ℚ :=
  if available ≤ 0 ∨ available < required then 0
  else
    let ratio := required / available
    if ratio ≤ 0.5 then 60 + ratio / 0.5 * 40
    else if ratio ≤ 0.8 then 100
    else if ratio ≤ 0.9 then 70
    else 50

/-- contextScore mirrors pole.contextScore. -/
def contextScore (model : LlmModel) (useCase : UseCase) : ℚ :=
  let target : ℕ :=
    match useCase with
    | UseCase.coding => 8192
    | UseCase.reasoning => 8192
    | UseCase.embedding => 512
    | _ => 4096
  if target ≤ model.contextLength then 100
  else if target / 2 ≤ model.contextLength then 70
  else 30

/-- computeScores mirrors pole.computeScores. -/
def computeScores (model : LlmModel) (quant : String) (useCase : UseCase)
    (estimatedTPS memRequired memAvailable : ℚ) : ScoreComponents :=
  { quality := qualityScore model quant useCase
    speed := speedScore estimatedTPS useCase
    fit := fitScore memRequired memAvailable
    context := contextScore model useCase }

/-- goRound models Go's math.Round: round half away from zero. -/
def goRound (x : ℚ) : ℤ :=
  if x < 0 then -(Int.floor (-x + 0.5)) else Int.floor (x + 0.5)

/-- weightedScore mirrors pole.weightedScore. -/
def weightedScore (sc : ScoreComponents) (useCase : UseCase) : ℚ :=
  let w : ℚ × ℚ × ℚ × ℚ :=
    match useCase with
    | UseCase.general => (0.45, 0.30, 0.15, 0.10)
    | UseCase.coding => (0.50, 0.20, 0.15, 0.15)
    | UseCase.reasoning => (0.55, 0.15, 0.15, 0.15)
    | UseCase.chat => (0.40, 0.35, 0.15, 0.10)
    | UseCase.multimodal => (0.50, 0.20, 0.15, 0.15)
    | UseCase.embedding => (0.30, 0.40, 0.20, 0.10)
  let raw := sc.quality * w.1 + sc.speed * w.2.1 + sc.fit * w.2.2.1 + sc.context * w.2.2.2
  (goRound (raw * 10) : ℚ) / 10

/-- Analyze mirrors pole.Analyze (minus Notes): decision tree for run mode
and memory, fit level, utilization, MoE offload figure, best quantization,
speed estimate and weighted score. -/
def Analyze (model : LlmModel) (system : SystemSpecs) (goarchArm64 : Bool) : ModelFit :=
  let useCase := UseCaseFromModel model
  let p := analyzeMem model system
  let runMode := p.1
  let memRequired := p.2.1
  let memAvailable := p.2.2
  let fitLevel := scoreFit memRequired memAvailable model.recommendedRAMGB runMode
  let utilPct := if 0 < memAvailable then memRequired / memAvailable * 100 else maxFloat64
  let moeOffloaded := if runMode = RunMode.moeOffload then model.MoeOffloadedRAMGB else none
  let bq := model.BestQuantForBudget memAvailable model.contextLength
  let bestQuant := bq.1
  let estTPS := estimateTPS model bestQuant system runMode goarchArm64
  let sc := computeScores model bestQuant useCase estTPS memRequired memAvailable
  let score := weightedScore sc useCase
  { model := model
    fitLevel := fitLevel
    runMode := runMode
    memoryRequiredGB := memRequired
    memoryAvailableGB := memAvailable
    utilizationPct := utilPct
    moeOffloadedGB := moeOffloaded
    score := score
    scoreComponents := sc
    estimatedTPS := estTPS
    bestQuant := bestQuant
    useCase := useCase }

/-- tooTightRank is 1 for a TooTight entry and 0 otherwise; the sort
comparator puts lower ranks first. -/
def tooTightRank (f : ModelFit) : ℕ :=
  if f.fitLevel = FitLevel.tooTight then 1 else 0

/-- rankRel is the total preorder induced by pole.RankModelsByFit's
sort.Slice comparator: rankRel a b holds exactly when the comparator does not
strictly order b before a, i.e. non-TooTight entries first and, within equal
partitions, scores descending. -/
def rankRel (a b : ModelFit) : Prop :=
  tooTightRank a < tooTightRank b ∨ (tooTightRank a = tooTightRank b ∧ b.score ≤ a.score)

instance : DecidableRel rankRel := fun a b => by
  unfold rankRel
  infer_instance

instance : IsTotal ModelFit rankRel := by
  constructor
  intro a b
  unfold rankRel
  rcases Nat.lt_trichotomy (tooTightRank a) (tooTightRank b) with h | h | h
  · exact Or.inl (Or.inl h)
  · rcases le_total b.score a.score with hs | hs
    · exact Or.inl (Or.inr ⟨h, hs⟩)
    · exact Or.inr (Or.inr ⟨h.symm, hs⟩)
  · exact Or.inr (Or.inl h)

instance : IsTrans ModelFit rankRel := by
  constructor
  intro a b c hab hbc
  unfold rankRel at *
  rcases hab with h1 | ⟨h1, hs1⟩
  · rcases hbc with h2 | ⟨h2, _⟩
    · exact Or.inl (h1.trans h2)
    · exact Or.inl (h2 ▸ h1)
  · rcases hbc with h2 | ⟨h2, hs2⟩
    · exact Or.inl (h1 ▸ h2)
    · exact Or.inr ⟨h1.trans h2, hs2.trans hs1⟩

/-- RankModelsByFit mirrors pole.RankModelsByFit: the input sorted by the
sort.Slice comparator (TooTight last, then score descending). Go's sort.Slice
produces some permutation sorted under the comparator's total preorder; the
embedding realises it with insertion sort over rankRel. -/
def RankModelsByFit (fits : List ModelFit) : List ModelFit :=
  List.insertionSort rankRel fits

/-- FilterPerfectOnly mirrors pole.FilterPerfectOnly. -/
def FilterPerfectOnly (fits : List ModelFit) : List ModelFit :=
  fits.filter (fun f => f.fitLevel = FitLevel.perfect)

/-- FilterByUseCase mirrors pole.FilterByUseCase: identity on an
unrecognized label, else keep entries with the matching use case. -/
def FilterByUseCase (fits : List ModelFit) (useCase : String) : List ModelFit :=
  match useCaseFromString useCase with
  | none => fits
  | some uc => fits.filter (fun f => f.useCase = uc)

/-- runModePenalty names the run-mode penalty table of pole.estimateTPS,
for stating the speed formula. -/
def runModePenalty (rm : RunMode) : ℚ :=
  match rm with
  | RunMode.gpu => 1
  | RunMode.moeOffload => 0.8
  | RunMode.cpuOffload => 0.5
  | RunMode.cpuOnly => 0.3

/-- specClaimedTPS follows the words of claim C7 (and spec section 4.4):
estimate = k over max(params, 0.1) times the quant speed multiplier, times
1.1 with at least 8 cores, times the run-mode penalty including 0.3 for
CPU-only, with CPU-only using the CPU-specific k instead of the backend k;
floor 0.1. Stated for comparison with estimateTPS, which it differs from. -/
def specClaimedTPS (model : LlmModel) (quant : String) (system : SystemSpecs)
    (runMode : RunMode) (goarchArm64 : Bool) : ℚ :=
  let k : ℚ :=
    if runMode = RunMode.cpuOnly then (if goarchArm64 then 90 else 70)
    else backendBaseK system.backend
  let params := if model.ParamsB < 0.1 then (0.1 : ℚ) else model.ParamsB
  let v := k / params * QuantSpeedMultiplier quant
  let v := if 8 ≤ system.totalCPUCores then v * 1.1 else v
  let v := v * runModePenalty runMode
  if v < 0.1 then 0.1 else v

/-- IsFirstSuchThat p qs q states that q is the first element of qs
satisfying p. -/
def IsFirstSuchThat (p : String → Prop) (qs : List String) (q : String) : Prop :=
  ∃ l₁ l₂, qs = l₁ ++ q :: l₂ ∧ p q ∧ ∀ x ∈ l₁, ¬ p x

/-- mkModelWithParams builds a concrete non-MoE model record with the given
parameter-count string, for witnesses and counterexamples. -/
def mkModelWithParams (pc : String) : LlmModel :=
  { name := "org/test-model", provider := "Org", parameterCount := pc,
    parametersRaw := none, minRAMGB := 8, recommendedRAMGB := 12,
    minVRAMGB := none, quantization := "Q4_K_M", contextLength := 4096,
    useCase := "General purpose", isMoE := false, numExperts := none,
    activeExperts := none, activeParameters := none }

/-- mkModelRaw is a concrete model with a raw parameter integer. -/
def mkModelRaw : LlmModel :=
  { mkModelWithParams "7B" with parametersRaw := some 7000000000 }

/-- sNoGPU is the spec's CPU-only scenario snapshot: 32 GB total,
25.6 GB available, 8 cores, no GPU. -/
def sNoGPU : SystemSpecs :=
  { totalRAMGB := 32, availableRAMGB := 25.6, totalCPUCores := 8,
    cpuName := "Test CPU", hasGPU := false, gpuVRAMGB := none, gpuName := none,
    gpuCount := 0, unifiedMemory := false, backend := GpuBackend.cpuX86, gpus := [] }

/-- sUnified is a unified-memory snapshot whose shared pool (16 GB) differs
from the available system RAM (12 GB). -/
def sUnified : SystemSpecs :=
  { totalRAMGB := 16, availableRAMGB := 12, totalCPUCores := 8,
    cpuName := "Apple M1", hasGPU := true, gpuVRAMGB := some 16,
    gpuName := some "Apple M1", gpuCount := 1, unifiedMemory := true,
    backend := GpuBackend.metal,
    gpus := [{ name := "Apple M1", vramGB := some 16, backend := GpuBackend.metal,
               count := 1, unifiedMemory := true }] }

/-- sZeroRAM is a degenerate snapshot with zero memory. -/
def sZeroRAM : SystemSpecs :=
  { totalRAMGB := 0, availableRAMGB := 0, totalCPUCores := 2,
    cpuName := "Tiny CPU", hasGPU := false, gpuVRAMGB := none, gpuName := none,
    gpuCount := 0, unifiedMemory := false, backend := GpuBackend.cpuX86, gpus := [] }

/-- sCudaFourCores is a CUDA snapshot with 4 cores, for the speed-formula
counterexample. -/
def sCudaFourCores : SystemSpecs :=
  { totalRAMGB := 32, availableRAMGB := 20, totalCPUCores := 4,
    cpuName := "Test CPU", hasGPU := true, gpuVRAMGB := some 8,
    gpuName := some "Test GPU", gpuCount := 1, unifiedMemory := false,
    backend := GpuBackend.cuda,
    gpus := [{ name := "Test GPU", vramGB := some 8, backend := GpuBackend.cuda,
               count := 1, unifiedMemory := false }] }

/-- mkFit builds a concrete fit result with a given fit level and score, for
ranking and filtering witnesses. -/
def mkFit (fl : FitLevel) (sc : ℚ) : ModelFit :=
  { model := mkModelWithParams "7B", fitLevel := fl, runMode := RunMode.cpuOnly,
    memoryRequiredGB := 8, memoryAvailableGB := 16, utilizationPct := 50,
    moeOffloadedGB := none, score := sc, scoreComponents := ⟨60, 20, 100, 100⟩,
    estimatedTPS := 8.8, bestQuant := "Q4_K_M", useCase := UseCase.general }

/-! Helper lemmas shared by the claim theorems. -/

/-- Analyze publishes as runMode exactly the run mode picked by the decision
tree. -/
theorem Analyze_runMode_eq (m : LlmModel) (s : SystemSpecs) (a : Bool) :
    (Analyze m s a).runMode = (analyzeMem m s).1 := rfl

/-- Analyze publishes as memoryRequiredGB the required figure picked by the
decision tree. -/
theorem Analyze_memReq_eq (m : LlmModel) (s : SystemSpecs) (a : Bool) :
    (Analyze m s a).memoryRequiredGB = (analyzeMem m s).2.1 := rfl

/-- Analyze publishes as memoryAvailableGB the available figure picked by the
decision tree. -/
theorem Analyze_memAvail_eq (m : LlmModel) (s : SystemSpecs) (a : Bool) :
    (Analyze m s a).memoryAvailableGB = (analyzeMem m s).2.2 := rfl

/-- Analyze computes the fit level by scoreFit on the decision tree's memory
figures. -/
theorem Analyze_fitLevel_eq (m : LlmModel) (s : SystemSpecs) (a : Bool) :
    (Analyze m s a).fitLevel =
      scoreFit (analyzeMem m s).2.1 (analyzeMem m s).2.2 m.recommendedRAMGB
        (analyzeMem m s).1 := rfl

/-- Analyze computes utilization from the decision tree's memory figures,
with the MaxFloat64 sentinel for a non-positive available figure. -/
theorem Analyze_util_eq (m : LlmModel) (s : SystemSpecs) (a : Bool) :
    (Analyze m s a).utilizationPct =
      if 0 < (analyzeMem m s).2.2 then (analyzeMem m s).2.1 / (analyzeMem m s).2.2 * 100
      else maxFloat64 := rfl

/-- Analyze computes the fit sub-score by fitScore on the decision tree's
memory figures. -/
theorem Analyze_fitComponent_eq (m : LlmModel) (s : SystemSpecs) (a : Bool) :
    (Analyze m s a).scoreComponents.fit =
      fitScore (analyzeMem m s).2.1 (analyzeMem m s).2.2 := rfl

/-- scoreFit in CPU-only mode is TooTight on memory overflow and Marginal
otherwise. -/
theorem scoreFit_cpuOnly (req avail rec : ℚ) :
    scoreFit req avail rec RunMode.cpuOnly =
      if avail < req then FitLevel.tooTight else FitLevel.marginal := rfl

/-- scoreFit returns TooTight whenever required exceeds available, so any
other level implies required at most available. -/
theorem scoreFit_ne_tooTight {req avail rec : ℚ} {rm : RunMode}
    (h : scoreFit req avail rec rm ≠ FitLevel.tooTight) : req ≤ avail := by
  by_contra hlt
  push_neg at hlt
  apply h
  unfold scoreFit
  rw [if_pos hlt]

/-- estimateTPS never returns less than the 0.1 floor. -/
theorem estimateTPS_floor (m : LlmModel) (q : String) (s : SystemSpecs)
    (rm : RunMode) (a : Bool) : (0.1 : ℚ) ≤ estimateTPS m q s rm a := by
  have h : ∀ x : ℚ, (0.1 : ℚ) ≤ if x < 0.1 then (0.1 : ℚ) else x := by
    intro x
    split
    · exact le_refl _
    · next hx => exact le_of_not_lt hx
  exact h _

/-! Claim theorems. -/

/-- C1: whenever Analyze selects CPU-only run mode, the fit level is
TooTight when required memory exceeds available memory and Marginal in every
other case — never Perfect or Good, however large the headroom. -/
theorem c1_cpuOnly_fit_capped (m : LlmModel) (s : SystemSpecs) (arm : Bool)
    (h : (Analyze m s arm).runMode = RunMode.cpuOnly) :
    (Analyze m s arm).fitLevel =
      (if (Analyze m s arm).memoryAvailableGB < (Analyze m s arm).memoryRequiredGB
        then FitLevel.tooTight else FitLevel.marginal) ∧
    (Analyze m s arm).fitLevel ≠ FitLevel.perfect ∧
    (Analyze m s arm).fitLevel ≠ FitLevel.good := by
  rw [Analyze_runMode_eq] at h
  rw [Analyze_fitLevel_eq, Analyze_memAvail_eq, Analyze_memReq_eq, h, scoreFit_cpuOnly]
  refine ⟨rfl, ?_, ?_⟩ <;> split <;> simp

/-- C1 witness: the spec's scenario — a 7B model with min RAM 8 and
recommended RAM 12 on a no-GPU 32 GB / 25.6 GB machine — runs CPU-only and
its fit level is not Perfect despite the headroom. -/
theorem c1_witness :
    (Analyze (mkModelWithParams "7B") sNoGPU false).runMode = RunMode.cpuOnly ∧
    (Analyze (mkModelWithParams "7B") sNoGPU false).fitLevel ≠ FitLevel.perfect :=
  ⟨rfl, (c1_cpuOnly_fit_capped (mkModelWithParams "7B") sNoGPU false rfl).2.1⟩

/-- C9: Analyze is a total function of its inputs (the embedding itself is a
total computable definition) and on every input, including degenerate
zero-memory snapshots, its result is well formed: the speed estimate respects
the 0.1 floor, any non-TooTight level implies required at most available,
utilization is the guarded quotient, and the fit sub-score's division is
guarded so a non-positive available memory yields 0. -/
theorem c9_analyze_total (m : LlmModel) (s : SystemSpecs) (arm : Bool) :
    (0.1 : ℚ) ≤ (Analyze m s arm).estimatedTPS ∧
    ((Analyze m s arm).fitLevel ≠ FitLevel.tooTight →
      (Analyze m s arm).memoryRequiredGB ≤ (Analyze m s arm).memoryAvailableGB) ∧
    (0 < (Analyze m s arm).memoryAvailableGB →
      (Analyze m s arm).utilizationPct =
        (Analyze m s arm).memoryRequiredGB / (Analyze m s arm).memoryAvailableGB * 100) ∧
    ((Analyze m s arm).memoryAvailableGB ≤ 0 →
      (Analyze m s arm).scoreComponents.fit = 0) := by
  refine ⟨estimateTPS_floor _ _ _ _ _, ?_, ?_, ?_⟩
  · intro h
    rw [Analyze_fitLevel_eq] at h
    rw [Analyze_memReq_eq, Analyze_memAvail_eq]
    exact scoreFit_ne_tooTight h
  · intro h
    rw [Analyze_memAvail_eq] at h
    rw [Analyze_util_eq, Analyze_memReq_eq, Analyze_memAvail_eq, if_pos h]
  · intro h
    rw [Analyze_memAvail_eq] at h
    rw [Analyze_fitComponent_eq]
    unfold fitScore
    rw [if_pos (Or.inl h)]

/-- C9 witness: on a degenerate snapshot with zero total and available RAM,
Analyze still returns a complete result with the guarded fit sub-score. -/
theorem c9_witness :
    (Analyze (mkModelWithParams "7B") sZeroRAM false).memoryAvailableGB ≤ 0 ∧
    (Analyze (mkModelWithParams "7B") sZeroRAM false).scoreComponents.fit = 0 :=
  have h : (Analyze (mkModelWithParams "7B") sZeroRAM false).memoryAvailableGB = 0 := rfl
  ⟨le_of_eq h, (c9_analyze_total (mkModelWithParams "7B") sZeroRAM false).2.2.2 (le_of_eq h)⟩

/-- C10: every Analyze result has utilization equal to required over
available times 100 when available memory is positive, and equal to the
math.MaxFloat64 sentinel whenever available memory is zero or negative. -/
theorem c10_utilization (m : LlmModel) (s : SystemSpecs) (arm : Bool) :
    (0 < (Analyze m s arm).memoryAvailableGB →
      (Analyze m s arm).utilizationPct =
        (Analyze m s arm).memoryRequiredGB / (Analyze m s arm).memoryAvailableGB * 100) ∧
    ((Analyze m s arm).memoryAvailableGB ≤ 0 →
      (Analyze m s arm).utilizationPct = maxFloat64) := by
  rw [Analyze_util_eq, Analyze_memReq_eq, Analyze_memAvail_eq]
  constructor
  · intro h
    rw [if_pos h]
  · intro h
    rw [if_neg (not_lt.mpr h)]

/-- C10 witness: on the no-GPU snapshot the available memory is positive and
utilization is the quotient times 100. -/
theorem c10_witness :
    0 < (Analyze (mkModelWithParams "7B") sNoGPU false).memoryAvailableGB ∧
    (Analyze (mkModelWithParams "7B") sNoGPU false).utilizationPct =
      (Analyze (mkModelWithParams "7B") sNoGPU false).memoryRequiredGB /
        (Analyze (mkModelWithParams "7B") sNoGPU false).memoryAvailableGB * 100 :=
  have h : 0 < (Analyze (mkModelWithParams "7B") sNoGPU false).memoryAvailableGB := by
    rw [show (Analyze (mkModelWithParams "7B") sNoGPU false).memoryAvailableGB = (25.6 : ℚ) from rfl]
    norm_num
  ⟨h, (c10_utilization (mkModelWithParams "7B") sNoGPU false).1 h⟩

/-- C4 counterexample: on a unified-memory snapshot whose shared pool is
16 GB while the system's available RAM is 12 GB, Analyze reports available
memory 16 — the GPU's shared-pool figure, not the system's available RAM as
the claim states. -/
theorem c4_counterexample :
    sUnified.hasGPU = true ∧ sUnified.unifiedMemory = true ∧
    sUnified.gpuVRAMGB = some 16 ∧ sUnified.availableRAMGB = 12 ∧
    (Analyze (mkModelWithParams "7B") sUnified false).runMode = RunMode.gpu ∧
    (Analyze (mkModelWithParams "7B") sUnified false).memoryAvailableGB = 16 ∧
    (Analyze (mkModelWithParams "7B") sUnified false).memoryAvailableGB ≠
      sUnified.availableRAMGB := by
  refine ⟨rfl, rfl, rfl, rfl, rfl, rfl, ?_⟩
  rw [show (Analyze (mkModelWithParams "7B") sUnified false).memoryAvailableGB = (16 : ℚ) from rfl,
    show sUnified.availableRAMGB = (12 : ℚ) from rfl]
  norm_num

/-- C4 (amended): for every snapshot with a unified-memory GPU of known
VRAM, Analyze selects GPU run mode with required memory equal to the model's
declared min VRAM when present and min RAM otherwise, and available memory
equal to the GPU's shared-pool VRAM figure (not the system's available
RAM). -/
theorem c4_unified_gpu_mode (m : LlmModel) (s : SystemSpecs) (arm : Bool) (v : ℚ)
    (h1 : s.hasGPU = true) (h2 : s.unifiedMemory = true) (h3 : s.gpuVRAMGB = some v) :
    (Analyze m s arm).runMode = RunMode.gpu ∧
    (Analyze m s arm).memoryRequiredGB = m.minVRAMGB.getD m.minRAMGB ∧
    (Analyze m s arm).memoryAvailableGB = v := by
  rw [Analyze_runMode_eq, Analyze_memReq_eq, Analyze_memAvail_eq]
  unfold analyzeMem
  rw [h1, h2, h3]
  simp

/-- C4 witness: on the concrete unified-memory snapshot the amended claim's
hypotheses hold and Analyze picks GPU mode over the 16 GB pool. -/
theorem c4_witness :
    sUnified.hasGPU = true ∧ sUnified.unifiedMemory = true ∧
    sUnified.gpuVRAMGB = some 16 ∧
    (Analyze (mkModelWithParams "7B") sUnified false).runMode = RunMode.gpu ∧
    (Analyze (mkModelWithParams "7B") sUnified false).memoryAvailableGB = 16 :=
  ⟨rfl, rfl, rfl,
    (c4_unified_gpu_mode (mkModelWithParams "7B") sUnified false 16 rfl rfl rfl).1,
    (c4_unified_gpu_mode (mkModelWithParams "7B") sUnified false 16 rfl rfl rfl).2.2⟩

/-- C8: FilterByUseCase is the identity on every label the recognizer
rejects, and for a recognized label keeps exactly the entries whose use case
matches. -/
theorem c8_filterByUseCase (fits : List ModelFit) (s : String) :
    (useCaseFromString s = none → FilterByUseCase fits s = fits) ∧
    (∀ uc, useCaseFromString s = some uc →
      FilterByUseCase fits s = fits.filter (fun f => f.useCase = uc)) := by
  constructor
  · intro h
    unfold FilterByUseCase
    rw [h]
  · intro uc h
    unfold FilterByUseCase
    rw [h]

/-- C8 witness: the unrecognized label "speed" leaves a concrete list
unchanged, and the recognized label "coding" filters it. -/
theorem c8_witness :
    useCaseFromString "speed" = none ∧
    FilterByUseCase [mkFit FitLevel.good 50] "speed" = [mkFit FitLevel.good 50] ∧
    useCaseFromString "coding" = some UseCase.coding :=
  ⟨rfl, (c8_filterByUseCase [mkFit FitLevel.good 50] "speed").1 rfl, rfl⟩

/-- C3: RankModelsByFit returns a permutation of its input in which, for
every pair of entries in output order, a TooTight earlier entry forces the
later one TooTight (so every TooTight entry is after every non-TooTight
entry), and equal partition membership forces non-increasing scores. -/
theorem c3_rankModelsByFit (fits : List ModelFit) :
    (RankModelsByFit fits).Perm fits ∧
    (RankModelsByFit fits).Pairwise (fun a b =>
      (a.fitLevel = FitLevel.tooTight → b.fitLevel = FitLevel.tooTight) ∧
      ((a.fitLevel = FitLevel.tooTight ↔ b.fitLevel = FitLevel.tooTight) →
        b.score ≤ a.score)) := by
  constructor
  · exact List.perm_insertionSort rankRel fits
  · have hs := List.sorted_insertionSort rankRel fits
    refine hs.imp ?_
    intro a b hab
    constructor
    · intro ha
      rcases hab with h | ⟨h, _⟩
      · by_contra hb
        unfold tooTightRank at h
        rw [if_pos ha, if_neg hb] at h
        omega
      · by_contra hb
        unfold tooTightRank at h
        rw [if_pos ha, if_neg hb] at h
        omega
    · intro hiff
      rcases hab with h | ⟨_, hs'⟩
      · exfalso
        unfold tooTightRank at h
        by_cases ha : a.fitLevel = FitLevel.tooTight
        · rw [if_pos ha, if_pos (hiff.mp ha)] at h
          omega
        · rw [if_neg ha, if_neg (fun hb => ha (hiff.mpr hb))] at h
          omega
      · exact hs'

/-- C3 witness: ranking a concrete list with a high-scoring TooTight entry
and a low-scoring Good entry yields a permutation with the claimed pairwise
order. -/
theorem c3_witness :
    (RankModelsByFit [mkFit FitLevel.tooTight 90, mkFit FitLevel.good 10]).Perm
      [mkFit FitLevel.tooTight 90, mkFit FitLevel.good 10] ∧
    (RankModelsByFit [mkFit FitLevel.tooTight 90, mkFit FitLevel.good 10]).Pairwise
      (fun a b =>
        (a.fitLevel = FitLevel.tooTight → b.fitLevel = FitLevel.tooTight) ∧
        ((a.fitLevel = FitLevel.tooTight ↔ b.fitLevel = FitLevel.tooTight) →
          b.score ≤ a.score)) :=
  c3_rankModelsByFit [mkFit FitLevel.tooTight 90, mkFit FitLevel.good 10]

/-- QuantBPP is positive for every quantization name. -/
theorem QuantBPP_pos (q : String) : 0 < QuantBPP q := by
  unfold QuantBPP
  split_ifs <;> norm_num

/-- EstimateMemoryGB is positive whenever the model's derived parameter
count is nonnegative (the 0.5 overhead dominates). -/
theorem estimateMemory_pos (m : LlmModel) (hp : 0 ≤ m.ParamsB) (q : String) (c : ℕ) :
    0 < m.EstimateMemoryGB q c := by
  unfold LlmModel.EstimateMemoryGB
  have h1 : 0 ≤ m.ParamsB * QuantBPP q := mul_nonneg hp (QuantBPP_pos q).le
  have h2 : (0 : ℚ) ≤ 0.000008 * m.ParamsB * (c : ℚ) :=
    mul_nonneg (mul_nonneg (by norm_num) hp) (Nat.cast_nonneg c)
  dsimp only
  nlinarith

/-- A none result of the scan means no quantization in the list fits the
budget. -/
theorem scanQuants_eq_none_iff (m : LlmModel) (b : ℚ) (c : ℕ) (qs : List String) :
    LlmModel.scanQuants m b c qs = none ↔ ∀ q ∈ qs, b < m.EstimateMemoryGB q c := by
  induction qs with
  | nil => simp [LlmModel.scanQuants]
  | cons q rest ih =>
    simp only [LlmModel.scanQuants, List.forall_mem_cons]
    split
    · next hle =>
      constructor
      · intro h
        exact absurd h (by simp)
      · intro h
        exact absurd h.1 (not_lt.mpr hle)
    · next hgt =>
      rw [ih]
      constructor
      · intro h
        exact ⟨not_le.mp hgt, h⟩
      · intro h
        exact h.2

/-- A some result of the scan is the first fitting quantization with its
estimate. -/
theorem scanQuants_eq_some (m : LlmModel) (b : ℚ) (c : ℕ) :
    ∀ (qs : List String) (r : String × ℚ), LlmModel.scanQuants m b c qs = some r →
      ∃ l₁ l₂, qs = l₁ ++ r.1 :: l₂ ∧ m.EstimateMemoryGB r.1 c ≤ b ∧
        r.2 = m.EstimateMemoryGB r.1 c ∧ ∀ q ∈ l₁, b < m.EstimateMemoryGB q c := by
  intro qs
  induction qs with
  | nil =>
    intro r h
    simp [LlmModel.scanQuants] at h
  | cons q rest ih =>
    intro r h
    simp only [LlmModel.scanQuants] at h
    split at h
    · next hle =>
      injection h with h
      subst h
      exact ⟨[], rest, rfl, hle, rfl, by simp⟩
    · next hgt =>
      obtain ⟨l₁, l₂, heq, h1, h2, h3⟩ := ih r h
      refine ⟨q :: l₁, l₂, by rw [heq]; rfl, h1, h2, ?_⟩
      exact List.forall_mem_cons.mpr ⟨not_le.mp hgt, h3⟩

/-- BestQuantForBudget returns the first scan's hit when there is one. -/
theorem bestQuant_of_first_scan {m : LlmModel} {b : ℚ} {ctx : ℕ} {r : String × ℚ}
    (h : LlmModel.scanQuants m b ctx QuantHierarchy = some r) :
    m.BestQuantForBudget b ctx = r := by
  unfold LlmModel.BestQuantForBudget
  rw [h]

/-- BestQuantForBudget returns the half-context scan's hit when the first
scan misses and the halved context stays at or above 1024. -/
theorem bestQuant_of_second_scan {m : LlmModel} {b : ℚ} {ctx : ℕ} {r : String × ℚ}
    (h1 : LlmModel.scanQuants m b ctx QuantHierarchy = none) (h2 : 1024 ≤ ctx / 2)
    (h3 : LlmModel.scanQuants m b (ctx / 2) QuantHierarchy = some r) :
    m.BestQuantForBudget b ctx = r := by
  unfold LlmModel.BestQuantForBudget
  rw [h1]
  simp only [if_pos h2, h3]

/-- BestQuantForBudget falls back to the model's declared quantization with
its estimate at the original context when both scans miss (or the halved
context is under the 1024 floor). -/
theorem bestQuant_default {m : LlmModel} {b : ℚ} {ctx : ℕ}
    (h1 : LlmModel.scanQuants m b ctx QuantHierarchy = none)
    (h2 : ctx / 2 < 1024 ∨ LlmModel.scanQuants m b (ctx / 2) QuantHierarchy = none) :
    m.BestQuantForBudget b ctx = (m.quantization, m.EstimateMemoryGB m.quantization ctx) := by
  unfold LlmModel.BestQuantForBudget
  rw [h1]
  by_cases hc : 1024 ≤ ctx / 2
  · rcases h2 with h2 | h2
    · exact absurd hc (not_le.mpr h2)
    · simp only [if_pos hc, h2]
  · simp only [if_neg hc]

/-- The memory figure BestQuantForBudget returns is always one of the
model's estimates. -/
theorem bestQuant_snd_is_estimate (m : LlmModel) (b : ℚ) (ctx : ℕ) :
    ∃ q c, m.BestQuantForBudget b ctx = (q, m.EstimateMemoryGB q c) := by
  rcases h1 : LlmModel.scanQuants m b ctx QuantHierarchy with _ | r
  · by_cases h2 : 1024 ≤ ctx / 2
    · rcases h3 : LlmModel.scanQuants m b (ctx / 2) QuantHierarchy with _ | r
      · exact ⟨m.quantization, ctx, bestQuant_default h1 (Or.inr h3)⟩
      · obtain ⟨l₁, l₂, _, _, hsnd, _⟩ := scanQuants_eq_some m b (ctx / 2) QuantHierarchy r h3
        exact ⟨r.1, ctx / 2, by rw [bestQuant_of_second_scan h1 h2 h3, ← hsnd]⟩
    · exact ⟨m.quantization, ctx, bestQuant_default h1 (Or.inl (not_le.mp h2))⟩
  · obtain ⟨l₁, l₂, _, _, hsnd, _⟩ := scanQuants_eq_some m b ctx QuantHierarchy r h1
    exact ⟨r.1, ctx, by rw [bestQuant_of_first_scan h1, ← hsnd]⟩

/-- C2 (amended): BestQuantForBudget scans the hierarchy best-to-worst and
returns the first fit at the given context; failing that it rescans at the
halved context when that stays at or above 1024; failing that it returns the
declared default quantization with its estimate at the original context. The
returned memory figure is positive provided the model's derived parameter
count is nonnegative. -/
theorem c2_bestQuantForBudget (m : LlmModel) (budgetGB : ℚ) (ctx : ℕ)
    (hp : 0 ≤ m.ParamsB) :
    0 < (m.BestQuantForBudget budgetGB ctx).2 ∧
    ((∃ q ∈ QuantHierarchy, m.EstimateMemoryGB q ctx ≤ budgetGB) →
      IsFirstSuchThat (fun q => m.EstimateMemoryGB q ctx ≤ budgetGB) QuantHierarchy
        (m.BestQuantForBudget budgetGB ctx).1 ∧
      (m.BestQuantForBudget budgetGB ctx).2 =
        m.EstimateMemoryGB (m.BestQuantForBudget budgetGB ctx).1 ctx) ∧
    ((∀ q ∈ QuantHierarchy, budgetGB < m.EstimateMemoryGB q ctx) → 1024 ≤ ctx / 2 →
      (∃ q ∈ QuantHierarchy, m.EstimateMemoryGB q (ctx / 2) ≤ budgetGB) →
      IsFirstSuchThat (fun q => m.EstimateMemoryGB q (ctx / 2) ≤ budgetGB) QuantHierarchy
        (m.BestQuantForBudget budgetGB ctx).1 ∧
      (m.BestQuantForBudget budgetGB ctx).2 =
        m.EstimateMemoryGB (m.BestQuantForBudget budgetGB ctx).1 (ctx / 2)) ∧
    ((∀ q ∈ QuantHierarchy, budgetGB < m.EstimateMemoryGB q ctx) →
      (ctx / 2 < 1024 ∨ ∀ q ∈ QuantHierarchy, budgetGB < m.EstimateMemoryGB q (ctx / 2)) →
      m.BestQuantForBudget budgetGB ctx =
        (m.quantization, m.EstimateMemoryGB m.quantization ctx)) := by
  refine ⟨?_, ?_, ?_, ?_⟩
  · obtain ⟨q, c, hq⟩ := bestQuant_snd_is_estimate m budgetGB ctx
    rw [hq]
    exact estimateMemory_pos m hp q c
  · intro hex
    have hne : LlmModel.scanQuants m budgetGB ctx QuantHierarchy ≠ none := by
      rw [Ne, scanQuants_eq_none_iff]
      push_neg
      obtain ⟨q, hqmem, hqle⟩ := hex
      exact ⟨q, hqmem, hqle⟩
    rcases h1 : LlmModel.scanQuants m budgetGB ctx QuantHierarchy with _ | r
    · exact absurd h1 hne
    · obtain ⟨l₁, l₂, heq, hle, hsnd, hfirst⟩ :=
        scanQuants_eq_some m budgetGB ctx QuantHierarchy r h1
      rw [bestQuant_of_first_scan h1]
      exact ⟨⟨l₁, l₂, heq, hle, fun x hx => not_le.mpr (hfirst x hx)⟩, hsnd⟩
  · intro hall h1024 hex
    have h1 : LlmModel.scanQuants m budgetGB ctx QuantHierarchy = none :=
      (scanQuants_eq_none_iff m budgetGB ctx QuantHierarchy).mpr hall
    have hne : LlmModel.scanQuants m budgetGB (ctx / 2) QuantHierarchy ≠ none := by
      rw [Ne, scanQuants_eq_none_iff]
      push_neg
      obtain ⟨q, hqmem, hqle⟩ := hex
      exact ⟨q, hqmem, hqle⟩
    rcases h3 : LlmModel.scanQuants m budgetGB (ctx / 2) QuantHierarchy with _ | r
    · exact absurd h3 hne
    · obtain ⟨l₁, l₂, heq, hle, hsnd, hfirst⟩ :=
        scanQuants_eq_some m budgetGB (ctx / 2) QuantHierarchy r h3
      rw [bestQuant_of_second_scan h1 h1024 h3]
      exact ⟨⟨l₁, l₂, heq, hle, fun x hx => not_le.mpr (hfirst x hx)⟩, hsnd⟩
  · intro hall hrest
    have h1 : LlmModel.scanQuants m budgetGB ctx QuantHierarchy = none :=
      (scanQuants_eq_none_iff m budgetGB ctx QuantHierarchy).mpr hall
    rcases hrest with h2 | h2
    · exact bestQuant_default h1 (Or.inl h2)
    · exact bestQuant_default h1
        (Or.inr ((scanQuants_eq_none_iff m budgetGB (ctx / 2) QuantHierarchy).mpr h2))

/-- scanQuants on a cons is a first-fit test followed by the tail scan. -/
theorem scanQuants_cons (m : LlmModel) (b : ℚ) (c : ℕ) (q : String) (rest : List String) :
    LlmModel.scanQuants m b c (q :: rest) =
      if m.EstimateMemoryGB q c ≤ b then some (q, m.EstimateMemoryGB q c)
      else LlmModel.scanQuants m b c rest := rfl

/-- C2 counterexample: a model record whose parameter-count string parses to
a negative value ("-5B") makes BestQuantForBudget return a negative memory
figure, so the returned memory is not positive in every case. -/
theorem c2_counterexample : ((mkModelWithParams "-5B").BestQuantForBudget 1000 4096).2 < 0 := by
  have hp : (mkModelWithParams "-5B").ParamsB
      = -(((5 : ℕ) : ℚ) + ((0 : ℕ) : ℚ) / 10 ^ (0 : ℕ)) := rfl
  have hest : (mkModelWithParams "-5B").EstimateMemoryGB "Q8_0" 4096
      = (mkModelWithParams "-5B").ParamsB * QuantBPP "Q8_0"
        + 0.000008 * (mkModelWithParams "-5B").ParamsB * ((4096 : ℕ) : ℚ) + 0.5 := rfl
  have hneg : (mkModelWithParams "-5B").EstimateMemoryGB "Q8_0" 4096 < 0 := by
    rw [hest, hp, show QuantBPP "Q8_0" = (1.05 : ℚ) from rfl]
    norm_num
  have hle : (mkModelWithParams "-5B").EstimateMemoryGB "Q8_0" 4096 ≤ 1000 :=
    le_of_lt (lt_trans hneg (by norm_num))
  have hscan : LlmModel.scanQuants (mkModelWithParams "-5B") 1000 4096 QuantHierarchy
      = some ("Q8_0", (mkModelWithParams "-5B").EstimateMemoryGB "Q8_0" 4096) := by
    rw [QuantHierarchy, scanQuants_cons, if_pos hle]
  rw [bestQuant_of_first_scan hscan]
  exact hneg

/-- C2 witness: a 7B model has nonnegative derived parameters, so the
returned memory figure for a 100 GB budget at context 4096 is positive. -/
theorem c2_witness :
    0 ≤ (mkModelWithParams "7B").ParamsB ∧
    0 < ((mkModelWithParams "7B").BestQuantForBudget 100 4096).2 :=
  have h0 : 0 ≤ (mkModelWithParams "7B").ParamsB := by
    rw [show (mkModelWithParams "7B").ParamsB
        = ((7 : ℕ) : ℚ) + ((0 : ℕ) : ℚ) / 10 ^ (0 : ℕ) from rfl]
    positivity
  ⟨h0, (c2_bestQuantForBudget (mkModelWithParams "7B") 100 4096 h0).1⟩

/-- C5 (amended): ParamsB prefers the raw parameter integer over 1e9;
otherwise it parses a trailing B or M suffix case-insensitively into
billions; an empty string, or any string without a trailing B/M suffix,
yields the documented 7.0 default — but a B/M-suffixed string whose numeric
prefix does not parse yields 0, the ignored-error zero value, not 7.0. -/
theorem c5_paramsB :
    (∀ (m : LlmModel) (raw : ℕ), m.parametersRaw = some raw →
      m.ParamsB = (raw : ℚ) / 1000000000) ∧
    (mkModelWithParams "7B").ParamsB = 7 ∧
    (mkModelWithParams "1.5B").ParamsB = 1.5 ∧
    (mkModelWithParams "600M").ParamsB = 0.6 ∧
    (mkModelWithParams "137M").ParamsB = 0.137 ∧
    (mkModelWithParams "1.5b").ParamsB = 1.5 ∧
    (mkModelWithParams "").ParamsB = 7 ∧
    (∀ m : LlmModel, m.parametersRaw = none →
      (goTrimSpace (goToUpper m.parameterCount.toList)).getLast? ≠ some 'B' →
      (goTrimSpace (goToUpper m.parameterCount.toList)).getLast? ≠ some 'M' →
      m.ParamsB = 7) := by
  refine ⟨?_, ?_, ?_, ?_, ?_, ?_, ?_, ?_⟩
  · intro m raw h
    unfold LlmModel.ParamsB
    rw [h]
  · rw [show (mkModelWithParams "7B").ParamsB
        = ((7 : ℕ) : ℚ) + ((0 : ℕ) : ℚ) / 10 ^ (0 : ℕ) from rfl]
    norm_num
  · rw [show (mkModelWithParams "1.5B").ParamsB
        = ((1 : ℕ) : ℚ) + ((5 : ℕ) : ℚ) / 10 ^ (1 : ℕ) from rfl]
    norm_num
  · rw [show (mkModelWithParams "600M").ParamsB
        = (((600 : ℕ) : ℚ) + ((0 : ℕ) : ℚ) / 10 ^ (0 : ℕ)) / 1000 from rfl]
    norm_num
  · rw [show (mkModelWithParams "137M").ParamsB
        = (((137 : ℕ) : ℚ) + ((0 : ℕ) : ℚ) / 10 ^ (0 : ℕ)) / 1000 from rfl]
    norm_num
  · rw [show (mkModelWithParams "1.5b").ParamsB
        = ((1 : ℕ) : ℚ) + ((5 : ℕ) : ℚ) / 10 ^ (1 : ℕ) from rfl]
    norm_num
  · rw [show (mkModelWithParams "").ParamsB = (7.0 : ℚ) from rfl]
    norm_num
  · intro m h hB hM
    unfold LlmModel.ParamsB
    rw [h]
    dsimp only
    rcases hl : (goTrimSpace (goToUpper m.parameterCount.toList)).getLast? with _ | c
    · norm_num
    · rw [hl] at hB hM
      split
      · next heq => exact absurd heq hB
      · next heq => exact absurd heq hM
      · norm_num

/-- C5 counterexample: the unparseable parameter-count string "xB" yields 0,
not the claimed 7.0 default (the B branch is taken and the parse error is
discarded). -/
theorem c5_counterexample :
    (mkModelWithParams "xB").ParamsB = 0 ∧ (mkModelWithParams "xB").ParamsB ≠ 7 := by
  have h0 : (mkModelWithParams "xB").ParamsB = 0 := rfl
  refine ⟨h0, ?_⟩
  rw [h0]
  norm_num

/-- C5 witness: with a raw parameter integer present, ParamsB divides it by
1e9. -/
theorem c5_witness :
    mkModelRaw.parametersRaw = some 7000000000 ∧
    mkModelRaw.ParamsB = ((7000000000 : ℕ) : ℚ) / 1000000000 :=
  ⟨rfl, c5_paramsB.1 mkModelRaw 7000000000 rfl⟩

/-- C6 (amended): EstimateMemoryGB is exactly params times bytes-per-param
plus 8e-6 times params times context plus 0.5 (so the 7B Q4_K_M 4096 case
equals the claimed value exactly, within any tolerance); it is strictly
increasing in the derived parameter count, and strictly increasing in the
context length provided the parameter count is positive. -/
theorem c6_estimateMemoryGB :
    (∀ (m : LlmModel) (q : String) (c : ℕ),
      m.EstimateMemoryGB q c =
        m.ParamsB * QuantBPP q + 0.000008 * m.ParamsB * (c : ℚ) + 0.5) ∧
    (mkModelWithParams "7B").EstimateMemoryGB "Q4_K_M" 4096
      = 7 * 0.58 + 0.000008 * 7 * 4096 + 0.5 ∧
    (∀ (m₁ m₂ : LlmModel) (q : String) (c : ℕ), m₁.ParamsB < m₂.ParamsB →
      m₁.EstimateMemoryGB q c < m₂.EstimateMemoryGB q c) ∧
    (∀ (m : LlmModel) (q : String) (c₁ c₂ : ℕ), 0 < m.ParamsB → c₁ < c₂ →
      m.EstimateMemoryGB q c₁ < m.EstimateMemoryGB q c₂) := by
  refine ⟨fun m q c => rfl, ?_, ?_, ?_⟩
  · rw [show (mkModelWithParams "7B").EstimateMemoryGB "Q4_K_M" 4096
        = (mkModelWithParams "7B").ParamsB * QuantBPP "Q4_K_M"
          + 0.000008 * (mkModelWithParams "7B").ParamsB * ((4096 : ℕ) : ℚ) + 0.5 from rfl,
      show (mkModelWithParams "7B").ParamsB
        = ((7 : ℕ) : ℚ) + ((0 : ℕ) : ℚ) / 10 ^ (0 : ℕ) from rfl,
      show QuantBPP "Q4_K_M" = (0.58 : ℚ) from rfl]
    norm_num
  · intro m₁ m₂ q c h
    rw [show m₁.EstimateMemoryGB q c
        = m₁.ParamsB * QuantBPP q + 0.000008 * m₁.ParamsB * (c : ℚ) + 0.5 from rfl,
      show m₂.EstimateMemoryGB q c
        = m₂.ParamsB * QuantBPP q + 0.000008 * m₂.ParamsB * (c : ℚ) + 0.5 from rfl]
    have hb := QuantBPP_pos q
    have hc : (0 : ℚ) ≤ (c : ℚ) := Nat.cast_nonneg c
    nlinarith
  · intro m q c₁ c₂ hp hc
    rw [show m.EstimateMemoryGB q c₁
        = m.ParamsB * QuantBPP q + 0.000008 * m.ParamsB * (c₁ : ℚ) + 0.5 from rfl,
      show m.EstimateMemoryGB q c₂
        = m.ParamsB * QuantBPP q + 0.000008 * m.ParamsB * (c₂ : ℚ) + 0.5 from rfl]
    have hcc : (c₁ : ℚ) < (c₂ : ℚ) := by exact_mod_cast hc
    have h8 : (0 : ℚ) < 0.000008 * m.ParamsB := mul_pos (by norm_num) hp
    nlinarith

/-- C6 counterexample: a model whose parameter count parses to zero ("0B")
has the same memory estimate at context 2048 and 4096, so the estimate is
not strictly increasing in context for every model. -/
theorem c6_counterexample :
    (mkModelWithParams "0B").EstimateMemoryGB "Q4_K_M" 2048
      = (mkModelWithParams "0B").EstimateMemoryGB "Q4_K_M" 4096 := by
  have hp : (mkModelWithParams "0B").ParamsB
      = ((0 : ℕ) : ℚ) + ((0 : ℕ) : ℚ) / 10 ^ (0 : ℕ) := rfl
  rw [show (mkModelWithParams "0B").EstimateMemoryGB "Q4_K_M" 2048
      = (mkModelWithParams "0B").ParamsB * QuantBPP "Q4_K_M"
        + 0.000008 * (mkModelWithParams "0B").ParamsB * ((2048 : ℕ) : ℚ) + 0.5 from rfl,
    show (mkModelWithParams "0B").EstimateMemoryGB "Q4_K_M" 4096
      = (mkModelWithParams "0B").ParamsB * QuantBPP "Q4_K_M"
        + 0.000008 * (mkModelWithParams "0B").ParamsB * ((4096 : ℕ) : ℚ) + 0.5 from rfl,
    hp]
  norm_num

/-- C6 witness: a 1.5B model's parameter count is below a 7B model's, and so
is its memory estimate at the same quantization and context. -/
theorem c6_witness :
    (mkModelWithParams "1.5B").ParamsB < (mkModelWithParams "7B").ParamsB ∧
    (mkModelWithParams "1.5B").EstimateMemoryGB "Q4_K_M" 4096 <
      (mkModelWithParams "7B").EstimateMemoryGB "Q4_K_M" 4096 :=
  have h : (mkModelWithParams "1.5B").ParamsB < (mkModelWithParams "7B").ParamsB := by
    rw [show (mkModelWithParams "1.5B").ParamsB
        = ((1 : ℕ) : ℚ) + ((5 : ℕ) : ℚ) / 10 ^ (1 : ℕ) from rfl,
      show (mkModelWithParams "7B").ParamsB
        = ((7 : ℕ) : ℚ) + ((0 : ℕ) : ℚ) / 10 ^ (0 : ℕ) from rfl]
    norm_num
  ⟨h, c6_estimateMemoryGB.2.2.1 (mkModelWithParams "1.5B") (mkModelWithParams "7B")
    "Q4_K_M" 4096 h⟩

/-- Equal arguments give equal floored speed values. -/
theorem tpsFloor_congr {x y : ℚ} (h : x = y) :
    (if x < 0.1 then (0.1 : ℚ) else x) = if y < 0.1 then (0.1 : ℚ) else y := by rw [h]

/-- C7 (amended): the speed estimate is k over max(params, 0.1) times the
quantization speed multiplier, times 1.1 with at least 8 cores, times the
run-mode penalty for the GPU-backed modes (MoE-offload 0.8, CPU+GPU-offload
0.5); for CPU-only the estimate is instead recomputed from scratch with the
CPU-specific k (90 on arm64, 70 otherwise), replacing — not multiplying —
the 0.3-penalized value, so the 0.3 factor never reaches the result; floor
0.1. -/
theorem c7_estimateTPS_formula (model : LlmModel) (quant : String) (system : SystemSpecs)
    (rm : RunMode) (arm : Bool) :
    estimateTPS model quant system rm arm =
      (let params := if model.ParamsB < 0.1 then (0.1 : ℚ) else model.ParamsB
       let bump : ℚ := if 8 ≤ system.totalCPUCores then 1.1 else 1
       let v :=
         if rm = RunMode.cpuOnly then
           (if arm then (90 : ℚ) else 70) / params * QuantSpeedMultiplier quant * bump
         else
           backendBaseK system.backend / params * QuantSpeedMultiplier quant * bump *
             runModePenalty rm
       if v < 0.1 then 0.1 else v) := by
  cases rm <;> by_cases h8 : 8 ≤ system.totalCPUCores <;>
    simp only [estimateTPS, runModePenalty, h8, if_true, if_false, reduceCtorEq,
      decide_True, decide_False, ite_true, ite_false] <;>
    exact tpsFloor_congr (by ring)

/-- C7 counterexample: on a CUDA 4-core snapshot, a 1B model at Q5_K_M in
CPU-only mode gets estimate 70 (the recomputed CPU value), while the claim's
formula — the 0.3 CPU-only penalty applied on top of the CPU-k recompute —
yields 21; the claimed formula does not match the code. -/
theorem c7_counterexample :
    estimateTPS (mkModelWithParams "1B") "Q5_K_M" sCudaFourCores RunMode.cpuOnly false = 70 ∧
    specClaimedTPS (mkModelWithParams "1B") "Q5_K_M" sCudaFourCores RunMode.cpuOnly false = 21 ∧
    estimateTPS (mkModelWithParams "1B") "Q5_K_M" sCudaFourCores RunMode.cpuOnly false ≠
      specClaimedTPS (mkModelWithParams "1B") "Q5_K_M" sCudaFourCores RunMode.cpuOnly false := by
  have hp1 : (mkModelWithParams "1B").ParamsB = 1 := by
    rw [show (mkModelWithParams "1B").ParamsB
        = ((1 : ℕ) : ℚ) + ((0 : ℕ) : ℚ) / 10 ^ (0 : ℕ) from rfl]
    norm_num
  have hcores : ¬((8 : ℤ) ≤ sCudaFourCores.totalCPUCores) := by decide
  have h1 : estimateTPS (mkModelWithParams "1B") "Q5_K_M" sCudaFourCores
      RunMode.cpuOnly false = 70 := by
    simp only [estimateTPS, hp1, show QuantSpeedMultiplier "Q5_K_M" = (1.0 : ℚ) from rfl,
      show backendBaseK sCudaFourCores.backend = (220 : ℚ) from rfl, hcores,
      if_true, if_false, reduceCtorEq, decide_True, decide_False, ite_true, ite_false]
    norm_num
  have h2 : specClaimedTPS (mkModelWithParams "1B") "Q5_K_M" sCudaFourCores
      RunMode.cpuOnly false = 21 := by
    simp only [specClaimedTPS, runModePenalty, hp1,
      show QuantSpeedMultiplier "Q5_K_M" = (1.0 : ℚ) from rfl, hcores,
      if_true, if_false, reduceCtorEq, decide_True, decide_False, ite_true, ite_false]
    norm_num
  refine ⟨h1, h2, ?_⟩
  rw [h1, h2]
  norm_num

end Llmpole
